import Mathlib

/-!
Shallow embedding of the starter-kit templates
`database_connection.py` and `diagnostic_endpoints.py`.

The database and the process environment are modelled as passive oracles
(`DBState`, `Env`); each Python request handler becomes a pure Lean
function from those oracles to a `HandlerResult` (a JSON payload or an
HTTP error), and session-level side effects (SQL execution, commit,
rollback) are recorded as an explicit action trace.
-/

/-- JSON values, the shape of every handler response body. -/
inductive Json where
  | null
  | bool (b : Bool)
  | int (n : Int)
  | str (s : String)
  | arr (elems : List Json)
  | obj (fields : List (String × Json))

/-- Lookup of a top-level key in a JSON object; `none` on non-objects. -/
def Json.lookup : Json → String → Option Json
  | .obj fields, k => List.lookup k fields
  | _, _ => none

/-- True when the value is a JSON object (a Python dict / mapping). -/
def Json.isObj : Json → Bool
  | .obj _ => true
  | _ => false

/-- True when the value is an object all of whose values are booleans. -/
def Json.allBools : Json → Bool
  | .obj fields => fields.all (fun kv => match kv.2 with | .bool _ => true | _ => false)
  | _ => false

/-- Process environment: `os.getenv` returns `none` when a variable is unset. -/
abbrev Env : Type := String → Option String

/-- Python truthiness of an `os.getenv` result: `None` and the empty string
are falsy, any non-empty string is truthy (models `bool(os.getenv(k))` and
`if not os.getenv(k)`). -/
def pyTruthy : Option String → Bool
  | none => false
  | some s => !s.data.isEmpty

/-- Column metadata as returned by `inspector.get_columns`. -/
structure ColumnInfo where
  name : String
  colType : String
  nullable : Bool
  default : Option String

/-- Index metadata as returned by `inspector.get_indexes`. -/
structure IndexInfo where
  name : String
  column_names : List String
  unique : Bool

/-- One effect performed on a SQLAlchemy session. -/
inductive DBAction where
  | exec (sql : String)
  | commit
  | rollback
deriving DecidableEq, Repr

/-- Trace of the actions a handler performed on its session. -/
abbrev Session : Type := List DBAction

/-- Passive database oracle: the outcome of each query or session operation
the two modules can issue. `Except.error e` models the operation raising an
exception whose `str` is `e`. -/
structure DBState where
  selectOne : Except String Unit
  tables : Except String (List String)
  maxId : String → Except String (Option Int)
  lastValue : String → Except String Int
  columns : String → Except String (List ColumnInfo)
  rowCount : String → Except String Int
  indexes : String → Except String (List IndexInfo)
  alterSeq : String → Int → Except String Unit
  commitResult : Except String Unit

/-- Outcome of one request handler: a JSON body, or a raised `HTTPException`. -/
inductive HandlerResult where
  | ok (payload : Json)
  | httpError (status : Nat) (detail : String)

/-- Lookup of a top-level key in a successful response; `none` on HTTP errors. -/
def HandlerResult.look : HandlerResult → String → Option Json
  | .ok p, k => p.lookup k
  | .httpError _ _, _ => none

/-- True when a normally returned body is a JSON object; HTTP errors are
not normal returns and do not count against it. -/
def HandlerResult.returnsObj : HandlerResult → Bool
  | .ok p => p.isObj
  | .httpError _ _ => true

/-- Boolean test that `s` starts with `p`, as Python `str.startswith`;
stated over the character lists so that it evaluates by reduction. -/
def strStartsWith (s p : String) : Bool := p.data.isPrefixOf s.data

/-- Single-quote character, used inside Python f-string literals. -/
def sglq : String := String.singleton (Char.ofNat 39)

/-! ## database_connection.py -/

/-- Engine construction arguments chosen at module import. -/
inductive EngineConfig where
  | staticPoolCfg (check_same_thread : Bool)
  | queuePoolCfg (pool_size : Nat) (max_overflow : Nat) (pool_pre_ping : Bool) (pool_recycle : Nat)
deriving DecidableEq

/-- Value of `DATABASE_URL` after the module-top logic
`if not os.getenv('DATABASE_URL'): load_dotenv()`: a variable already set in
the process environment is never overridden by `.env` (python-dotenv default),
so `.env` (modelled by `dotenvUrl`) only contributes when the variable is
entirely unset. -/
def moduleDatabaseUrl (env : Env) (dotenvUrl : Option String) : Option String :=
  if pyTruthy (env "DATABASE_URL") then env "DATABASE_URL"
  else
    match env "DATABASE_URL" with
    | some s => some s
    | none => dotenvUrl

/-- Engine creation at module import: raises `ValueError` when
`DATABASE_URL` is falsy after the optional `.env` load, otherwise picks
`StaticPool` with `check_same_thread=False` for `sqlite` URLs and the
pooled configuration (5, 10, pre-ping, 3600) for everything else. -/
def engine (env : Env) (dotenvUrl : Option String) : Except String EngineConfig :=
  let DATABASE_URL := moduleDatabaseUrl env dotenvUrl
  if !pyTruthy DATABASE_URL then
    .error ("DATABASE_URL environment variable not set. Set it in .env for local development or platform dashboard for production.")
  else if strStartsWith (DATABASE_URL.getD "") "sqlite" then
    .ok (.staticPoolCfg false)
  else
    .ok (.queuePoolCfg 5 10 true 3600)

/-- State of one SQLAlchemy session handle. -/
structure DbSession where
  closed : Bool

/-- Fresh session from the session factory. -/
def SessionLocal : DbSession := { closed := false }

/-- The `get_db` dependency: creates a session, runs the request handler
with it (the handler returning `Except.error` models it raising), and in
the `finally` block closes the session before the result propagates. -/
def get_db (handler : DbSession → Except String Json × DbSession) :
    Except String Json × DbSession :=
  let db := SessionLocal
  let r := handler db
  (r.1, { r.2 with closed := true })

/-- Try-block body of `fix_sequence`: reads `MAX(id)`, restarts the
sequence at `max_id + 1`, commits; the first failing operation aborts with
its error and the trace of actions issued so far. -/
def fix_sequence_try (db : DBState) (table_name : String) (s : Session) :
    Except String Int × Session :=
  let s1 := s ++ [DBAction.exec ("SELECT MAX(id) FROM " ++ table_name)]
  match db.maxId table_name with
  | .error e => (.error e, s1)
  | .ok mx =>
    let max_id : Int := mx.getD 0
    let s2 := s1 ++ [DBAction.exec ("ALTER SEQUENCE " ++ table_name ++ "_id_seq RESTART WITH " ++ toString (max_id + 1))]
    match db.alterSeq table_name (max_id + 1) with
    | .error e => (.error e, s2)
    | .ok _ =>
      let s3 := s2 ++ [DBAction.commit]
      match db.commitResult with
      | .error e => (.error e, s3)
      | .ok _ => (.ok (max_id + 1), s3)

/-- The `fix_sequence` utility: a no-op for non-PostgreSQL URLs, and
otherwise the try body with every exception caught and answered by a
session rollback; it never re-raises. -/
def fix_sequence (DATABASE_URL : String) (db : DBState) (table_name : String)
    (s : Session) : Except String Unit × Session :=
  if !strStartsWith DATABASE_URL "postgresql" then
    (.ok (), s)
  else
    match fix_sequence_try db table_name s with
    | (.ok _, s2) => (.ok (), s2)
    | (.error _, s2) => (.ok (), s2 ++ [DBAction.rollback])

/-! ## diagnostic_endpoints.py -/

/-- Handler for `GET /health`. -/
def health_check (ts : String) : HandlerResult :=
  .ok (.obj [("status", .str "healthy"), ("timestamp", .str ts),
             ("service", .str "your-app-name")])

/-- Lexicographic comparison of character lists by code point, the order
Python `sorted` uses on strings. -/
def lexLe : List Char → List Char → Bool
  | [], _ => true
  | _ :: _, [] => false
  | a :: as, b :: bs =>
    if a.toNat < b.toNat then true
    else if b.toNat < a.toNat then false
    else lexLe as bs

/-- String comparison backing the `sorted(tables)` call. -/
def pyStrLe (a b : String) : Prop := lexLe a.data b.data = true

instance : DecidableRel pyStrLe := fun a b =>
  inferInstanceAs (Decidable (lexLe a.data b.data = true))

/-- Totality of the code-point lexicographic comparison. -/
theorem lexLe_total : ∀ as bs : List Char, lexLe as bs = true ∨ lexLe bs as = true
  | [], _ => Or.inl rfl
  | _ :: _, [] => Or.inr rfl
  | a :: as, b :: bs => by
    rcases Nat.lt_trichotomy a.toNat b.toNat with h | h | h
    · exact Or.inl (by simp [lexLe, h])
    · have hn1 : ¬ a.toNat < b.toNat := by omega
      have hn2 : ¬ b.toNat < a.toNat := by omega
      rcases lexLe_total as bs with hr | hr
      · exact Or.inl (by simp [lexLe, hn1, hn2, hr])
      · exact Or.inr (by simp [lexLe, hn1, hn2, hr])
    · exact Or.inr (by simp [lexLe, h])

/-- Transitivity of the code-point lexicographic comparison. -/
theorem lexLe_trans : ∀ as bs cs : List Char,
    lexLe as bs = true → lexLe bs cs = true → lexLe as cs = true
  | [], _, _, _, _ => rfl
  | _ :: _, [], _, h1, _ => by simp [lexLe] at h1
  | _ :: _, _ :: _, [], _, h2 => by simp [lexLe] at h2
  | a :: as, b :: bs, c :: cs, h1, h2 => by
    simp only [lexLe] at h1 h2 ⊢
    rcases Nat.lt_trichotomy a.toNat b.toNat with hab | hab | hab
    · rcases Nat.lt_trichotomy b.toNat c.toNat with hbc | hbc | hbc
      · have hac : a.toNat < c.toNat := Nat.lt_trans hab hbc
        simp [hac]
      · have hac : a.toNat < c.toNat := by omega
        simp [hac]
      · have hn : ¬ b.toNat < c.toNat := by omega
        simp [hn, hbc] at h2
    · rcases Nat.lt_trichotomy b.toNat c.toNat with hbc | hbc | hbc
      · have hac : a.toNat < c.toNat := by omega
        simp [hac]
      · have h3 : ¬ a.toNat < b.toNat := by omega
        have h4 : ¬ b.toNat < a.toNat := by omega
        have h5 : ¬ b.toNat < c.toNat := by omega
        have h6 : ¬ c.toNat < b.toNat := by omega
        have hac1 : ¬ a.toNat < c.toNat := by omega
        have hac2 : ¬ c.toNat < a.toNat := by omega
        simp [h3, h4] at h1
        simp [h5, h6] at h2
        simp [hac1, hac2]
        exact lexLe_trans as bs cs h1 h2
      · have hn : ¬ b.toNat < c.toNat := by omega
        simp [hn, hbc] at h2
    · have hn : ¬ a.toNat < b.toNat := by omega
      simp [hn, hab] at h1

instance : IsTotal String pyStrLe :=
  ⟨fun a b => lexLe_total a.data b.data⟩

instance : IsTrans String pyStrLe :=
  ⟨fun a b c => lexLe_trans a.data b.data c.data⟩

/-- Handler for `GET /db-check`: probes the connection and lists tables;
every exception is converted into a `connected: false` JSON payload. -/
def database_check (env : Env) (db : DBState) (ts : String) : HandlerResult :=
  match db.selectOne with
  | .error e =>
    .ok (.obj [("connected", .bool false), ("error", .str e),
               ("database_url_set", .bool (pyTruthy (env "DATABASE_URL"))),
               ("timestamp", .str ts)])
  | .ok _ =>
    match db.tables with
    | .error e =>
      .ok (.obj [("connected", .bool false), ("error", .str e),
                 ("database_url_set", .bool (pyTruthy (env "DATABASE_URL"))),
                 ("timestamp", .str ts)])
    | .ok tables =>
      .ok (.obj [("connected", .bool true),
                 ("database_url_set", .bool (pyTruthy (env "DATABASE_URL"))),
                 ("table_count", .int (tables.length : Int)),
                 ("tables", .arr ((List.insertionSort pyStrLe tables).map Json.str)),
                 ("timestamp", .str ts)])

/-- Handler for `GET /env-check`: reports which variables are set using
Python truthiness of `os.getenv`, never their values, except for
`ENVIRONMENT` whose value is returned directly. -/
def environment_check (env : Env) (ts : String) : HandlerResult :=
  .ok (.obj [
    ("environment", .str ((env "ENVIRONMENT").getD "unknown")),
    ("variables", .obj [
      ("database_url_set", .bool (pyTruthy (env "DATABASE_URL"))),
      ("environment_set", .bool (pyTruthy (env "ENVIRONMENT"))),
      ("log_level_set", .bool (pyTruthy (env "LOG_LEVEL"))),
      ("finnhub_api_key_set", .bool (pyTruthy (env "FINNHUB_API_KEY"))),
      ("alpha_vantage_api_key_set", .bool (pyTruthy (env "ALPHA_VANTAGE_API_KEY"))),
      ("redis_url_set", .bool (pyTruthy (env "REDIS_URL"))),
      ("sentry_dsn_set", .bool (pyTruthy (env "SENTRY_DSN")))]),
    ("timestamp", .str ts)])

/-- JSON rendering of one column record in `table_info`
(`str(col["default"]) if col["default"] else None`). -/
def colJson (c : ColumnInfo) : Json :=
  .obj [("name", .str c.name), ("type", .str c.colType),
        ("nullable", .bool c.nullable),
        ("default", match c.default with
                    | some d => if d.data.isEmpty then Json.null else Json.str d
                    | none => Json.null)]

/-- JSON rendering of one index record in `table_info`. -/
def idxJson (i : IndexInfo) : Json :=
  .obj [("name", .str i.name),
        ("columns", .arr (i.column_names.map Json.str)),
        ("unique", .bool i.unique)]

/-- Handler for `GET /table-info/table_name`: 404 when the table is not in
the inspector list, otherwise columns, row count and indexes, with any
failure of those steps converted to HTTP 500. -/
def table_info (db : DBState) (table_name ts : String) : HandlerResult :=
  match db.tables with
  | .error e => .httpError 500 ("Error getting table info: " ++ e)
  | .ok tables =>
    if table_name ∈ tables then
      match db.columns table_name with
      | .error e => .httpError 500 ("Error getting table info: " ++ e)
      | .ok columns =>
        match db.rowCount table_name with
        | .error e => .httpError 500 ("Error getting table info: " ++ e)
        | .ok row_count =>
          match db.indexes table_name with
          | .error e => .httpError 500 ("Error getting table info: " ++ e)
          | .ok indexes =>
            .ok (.obj [("table_name", .str table_name),
                       ("row_count", .int row_count),
                       ("column_count", .int (columns.length : Int)),
                       ("columns", .arr (columns.map colJson)),
                       ("indexes", .arr (indexes.map idxJson)),
                       ("timestamp", .str ts)])
    else
      .httpError 404 ("Table " ++ sglq ++ table_name ++ sglq ++ " not found")

/-- Handler for `GET /sequence-check/table_name`: an error payload for
non-PostgreSQL URLs (no query issued), otherwise `MAX(id)` versus the
sequence `last_value`, with failures converted to HTTP 500; the returned
trace extends the input session trace by the queries issued. -/
def sequence_check (env : Env) (db : DBState) (table_name ts : String)
    (s : Session) : HandlerResult × Session :=
  let database_url := (env "DATABASE_URL").getD ""
  if !strStartsWith database_url "postgresql" then
    (.ok (.obj [("error", .str "Sequence check only applicable to PostgreSQL"),
                ("database_type",
                 .str (if strStartsWith database_url "sqlite" then "sqlite" else "unknown"))]), s)
  else
    let s1 := s ++ [DBAction.exec ("SELECT MAX(id) FROM " ++ table_name)]
    match db.maxId table_name with
    | .error e => (.httpError 500 ("Error checking sequence: " ++ e), s1)
    | .ok mx =>
      let max_id : Int := mx.getD 0
      let sequence_name := table_name ++ "_id_seq"
      let s2 := s1 ++ [DBAction.exec ("SELECT last_value FROM " ++ sequence_name)]
      match db.lastValue table_name with
      | .error e => (.httpError 500 ("Error checking sequence: " ++ e), s2)
      | .ok next_val =>
        let in_sync : Bool := decide (max_id < next_val)
        (.ok (.obj [("table_name", .str table_name),
                    ("max_id", .int max_id),
                    ("next_sequence_value", .int next_val),
                    ("in_sync", .bool in_sync),
                    ("needs_fix", .bool (!in_sync)),
                    ("fix_command",
                     if !in_sync then
                       Json.str ("ALTER SEQUENCE " ++ sequence_name ++ " RESTART WITH " ++ toString (max_id + 1) ++ ";")
                     else Json.null),
                    ("timestamp", .str ts)]), s2)

/-- Handler for `GET /version`. -/
def version_info (env : Env) (pyver ts : String) : HandlerResult :=
  let database_url := (env "DATABASE_URL").getD ""
  let db_type :=
    if strStartsWith database_url "postgresql" then "PostgreSQL"
    else if strStartsWith database_url "sqlite" then "SQLite"
    else "Unknown"
  .ok (.obj [("app_version", .str "1.0.0"), ("python_version", .str pyver),
             ("database_type", .str db_type),
             ("environment", .str ((env "ENVIRONMENT").getD "unknown")),
             ("timestamp", .str ts)])

/-- The routes registered on the router, one per decorated function in
`diagnostic_endpoints.py`. -/
inductive Handler where
  | health
  | db_check
  | env_check
  | table_info
  | sequence_check
  | version
deriving DecidableEq, Repr

/-- The router: the list of request handlers `@router.get` registers. -/
def routerHandlers : List Handler :=
  [.health, .db_check, .env_check, .table_info, .sequence_check, .version]

/-- Uniform dispatch of every router handler; `arg` is the path parameter
of the two table endpoints and `pyver` the interpreter version string. -/
def dispatch (h : Handler) (env : Env) (db : DBState) (arg pyver ts : String)
    (s : Session) : HandlerResult :=
  match h with
  | .health => health_check ts
  | .db_check => database_check env db ts
  | .env_check => environment_check env ts
  | .table_info => table_info db arg ts
  | .sequence_check => (sequence_check env db arg ts s).1
  | .version => version_info env pyver ts

/-! ## Sample oracles used by the witness theorems -/

/-- Environment with a PostgreSQL `DATABASE_URL` and nothing else set. -/
def envPg : Env := fun k => if k = "DATABASE_URL" then some "postgresql://localhost/app" else none

/-- Environment with a SQLite `DATABASE_URL` and nothing else set. -/
def envSqlite : Env := fun k => if k = "DATABASE_URL" then some "sqlite:///app.db" else none

/-- Environment with no variable set at all. -/
def envNone : Env := fun _ => none

/-- Database oracle on which every operation succeeds. -/
def dbOk : DBState where
  selectOne := .ok ()
  tables := .ok ["users", "posts"]
  maxId := fun _ => .ok (some 5)
  lastValue := fun _ => .ok 6
  columns := fun _ => .ok [{ name := "id", colType := "INTEGER", nullable := false, default := none }]
  rowCount := fun _ => .ok 5
  indexes := fun _ => .ok []
  alterSeq := fun _ _ => .ok ()
  commitResult := .ok ()

/-- Database oracle whose tables are all empty (`MAX(id)` is NULL). -/
def dbEmptyTable : DBState := { dbOk with maxId := fun _ => .ok none }

/-- Database oracle on which the `MAX(id)` query raises. -/
def dbFail : DBState := { dbOk with maxId := fun _ => .error "boom" }

/-! ## Claim theorems -/

/-- C2: with a PostgreSQL `DATABASE_URL` and both queries succeeding, the
sequence-check handler reports `in_sync` exactly when the sequence
`last_value` is strictly greater than the table maximum id (NULL treated
as 0), and `needs_fix` as its negation. -/
theorem sequence_check_in_sync_spec (env : Env) (db : DBState) (t ts : String)
    (s : Session) (u : String) (mx : Option Int) (v : Int)
    (hu : env "DATABASE_URL" = some u)
    (hpg : strStartsWith u "postgresql" = true)
    (hm : db.maxId t = Except.ok mx)
    (hv : db.lastValue t = Except.ok v) :
    ((sequence_check env db t ts s).1).look "max_id" = some (Json.int (mx.getD 0))
    ∧ ((sequence_check env db t ts s).1).look "in_sync"
        = some (Json.bool (decide (mx.getD 0 < v)))
    ∧ ((sequence_check env db t ts s).1).look "needs_fix"
        = some (Json.bool (!decide (mx.getD 0 < v))) := by
  simp [sequence_check, hu, hpg, hm, hv, HandlerResult.look, Json.lookup, List.lookup]

/-- Witness for C2 at a concrete PostgreSQL environment and database. -/
theorem sequence_check_in_sync_spec_witness :
    envPg "DATABASE_URL" = some "postgresql://localhost/app"
    ∧ ((sequence_check envPg dbOk "users" "T" []).1).look "in_sync" = some (Json.bool true)
    ∧ ((sequence_check envPg dbOk "users" "T" []).1).look "needs_fix" = some (Json.bool false) := by
  have h := sequence_check_in_sync_spec envPg dbOk "users" "T" []
    "postgresql://localhost/app" (some 5) 6 rfl (by decide) rfl rfl
  exact ⟨rfl, by simpa using h.2.1, by simpa using h.2.2⟩

/-- C9: when `DATABASE_URL` is unset or not PostgreSQL, the sequence-check
handler issues no query (the session trace is unchanged) and returns an
error payload whose `database_type` is `sqlite` for sqlite URLs and
`unknown` otherwise. -/
theorem sequence_check_non_postgres_spec (env : Env) (db : DBState) (t ts : String)
    (s : Session)
    (h : strStartsWith ((env "DATABASE_URL").getD "") "postgresql" = false) :
    (sequence_check env db t ts s).2 = s
    ∧ (sequence_check env db t ts s).1 =
        HandlerResult.ok (Json.obj
          [("error", Json.str "Sequence check only applicable to PostgreSQL"),
           ("database_type",
            Json.str (if strStartsWith ((env "DATABASE_URL").getD "") "sqlite"
                      then "sqlite" else "unknown"))]) := by
  constructor <;> simp [sequence_check, h]

/-- Witness for C9 at an environment with `DATABASE_URL` unset: the
reported `database_type` is `unknown` and no query is issued. -/
theorem sequence_check_non_postgres_spec_witness :
    (strStartsWith ((envNone "DATABASE_URL").getD "") "postgresql" = false)
    ∧ (sequence_check envNone dbOk "users" "T" []).2 = []
    ∧ (sequence_check envNone dbOk "users" "T" []).1 =
        HandlerResult.ok (Json.obj
          [("error", Json.str "Sequence check only applicable to PostgreSQL"),
           ("database_type", Json.str "unknown")]) := by
  have h := sequence_check_non_postgres_spec envNone dbOk "users" "T" [] (by decide)
  exact ⟨by decide, h.1, by simpa using h.2⟩

/-- C3: with a PostgreSQL `DATABASE_URL` and all operations succeeding,
`fix_sequence` restarts the sequence at `MAX(id) + 1` (1 for an empty
table) and then commits the session. -/
theorem fix_sequence_restart_spec (url : String) (db : DBState) (t : String)
    (s : Session) (mx : Option Int)
    (hpg : strStartsWith url "postgresql" = true)
    (hm : db.maxId t = Except.ok mx)
    (ha : db.alterSeq t (mx.getD 0 + 1) = Except.ok ())
    (hc : db.commitResult = Except.ok ()) :
    fix_sequence url db t s =
      (Except.ok (), s ++ [DBAction.exec ("SELECT MAX(id) FROM " ++ t),
        DBAction.exec ("ALTER SEQUENCE " ++ t ++ "_id_seq RESTART WITH " ++ toString (mx.getD 0 + 1)),
        DBAction.commit]) := by
  simp [fix_sequence, fix_sequence_try, hpg, hm, ha, hc]

/-- Witness for C3 on an empty table: the sequence is restarted at 1 and
the session committed. -/
theorem fix_sequence_restart_spec_witness :
    (strStartsWith "postgresql://localhost/app" "postgresql" = true)
    ∧ fix_sequence "postgresql://localhost/app" dbEmptyTable "users" [] =
        (Except.ok (), [DBAction.exec ("SELECT MAX(id) FROM " ++ "users"),
          DBAction.exec ("ALTER SEQUENCE " ++ "users" ++ "_id_seq RESTART WITH " ++ toString ((1 : Int))),
          DBAction.commit]) := by
  have h := fix_sequence_restart_spec "postgresql://localhost/app" dbEmptyTable
    "users" [] none (by decide) rfl rfl rfl
  exact ⟨by decide, by simpa using h⟩

/-- C10: `fix_sequence` never propagates an exception: its result is
always `Except.ok`, a non-PostgreSQL URL leaves the session untouched,
and a failing try body is answered by a rollback. -/
theorem fix_sequence_no_propagate (url : String) (db : DBState) (t : String)
    (s : Session) :
    (fix_sequence url db t s).1 = Except.ok ()
    ∧ (strStartsWith url "postgresql" = false → (fix_sequence url db t s).2 = s)
    ∧ (∀ e s2, strStartsWith url "postgresql" = true →
         fix_sequence_try db t s = (Except.error e, s2) →
         (fix_sequence url db t s).2 = s2 ++ [DBAction.rollback]) := by
  refine ⟨?_, ?_, ?_⟩
  · cases hpg : strStartsWith url "postgresql"
    · simp [fix_sequence, hpg]
    · rcases htry : fix_sequence_try db t s with ⟨e | v, s2⟩ <;>
        simp [fix_sequence, hpg, htry]
  · intro hpg
    simp [fix_sequence, hpg]
  · intro e s2 hpg htry
    simp [fix_sequence, hpg, htry]

/-- Witness for C10 on a database whose `MAX(id)` query raises: the call
returns normally and rolls the session back. -/
theorem fix_sequence_no_propagate_witness :
    (fix_sequence "postgresql://localhost/app" dbFail "users" []).1 = Except.ok ()
    ∧ (fix_sequence "postgresql://localhost/app" dbFail "users" []).2 =
        [DBAction.exec ("SELECT MAX(id) FROM " ++ "users"), DBAction.rollback] := by
  have h := fix_sequence_no_propagate "postgresql://localhost/app" dbFail "users" []
  refine ⟨h.1, ?_⟩
  have h2 := h.2.2 "boom" [DBAction.exec ("SELECT MAX(id) FROM " ++ "users")]
    (by decide) rfl
  simpa using h2

/-- C4: the `get_db` dependency closes the session it created once the
request completes, whether the handler returned a value or raised, and
the handler outcome itself is propagated unchanged. -/
theorem get_db_closes_session (handler : DbSession → Except String Json × DbSession) :
    ((get_db handler).2).closed = true
    ∧ (get_db handler).1 = (handler SessionLocal).1 :=
  ⟨rfl, rfl⟩

/-- C5: the engine configuration is chosen from `DATABASE_URL` alone:
sqlite URLs get `StaticPool` with `check_same_thread` disabled, every
other non-empty value gets the pooled configuration
(`pool_size 5`, `max_overflow 10`, `pool_pre_ping`, `pool_recycle 3600`),
and a falsy `DATABASE_URL` after the optional `.env` load raises. -/
theorem engine_pool_selection (env : Env) (dotenvUrl : Option String) :
    (∀ u, moduleDatabaseUrl env dotenvUrl = some u → strStartsWith u "sqlite" = true →
        engine env dotenvUrl = Except.ok (EngineConfig.staticPoolCfg false))
    ∧ (∀ u, moduleDatabaseUrl env dotenvUrl = some u → u.data.isEmpty = false →
        strStartsWith u "sqlite" = false →
        engine env dotenvUrl = Except.ok (EngineConfig.queuePoolCfg 5 10 true 3600))
    ∧ (pyTruthy (moduleDatabaseUrl env dotenvUrl) = false →
        ∃ msg, engine env dotenvUrl = Except.error msg) := by
  refine ⟨?_, ?_, ?_⟩
  · intro u hu hsq
    have hne : u.data.isEmpty = false := by
      cases h2 : u.data with
      | nil =>
        unfold strStartsWith at hsq
        rw [h2] at hsq
        exact absurd hsq (by decide)
      | cons c cs => simp [h2]
    simp [engine, hu, pyTruthy, hne, hsq]
  · intro u hu hne hsq
    simp [engine, hu, pyTruthy, hne, hsq]
  · intro h
    simp only [engine, h, Bool.not_false, if_pos]
    exact ⟨_, rfl⟩

/-- Witness for C5 at a sqlite URL, a PostgreSQL URL and an unset
environment. -/
theorem engine_pool_selection_witness :
    engine envSqlite none = Except.ok (EngineConfig.staticPoolCfg false)
    ∧ engine envPg none = Except.ok (EngineConfig.queuePoolCfg 5 10 true 3600)
    ∧ engine envNone none = Except.error "DATABASE_URL environment variable not set. Set it in .env for local development or platform dashboard for production." := by
  refine ⟨(engine_pool_selection envSqlite none).1 "sqlite:///app.db" rfl (by decide),
    (engine_pool_selection envPg none).2.1 "postgresql://localhost/app" rfl (by decide) (by decide),
    ?_⟩
  obtain ⟨msg, hmsg⟩ := (engine_pool_selection envNone none).2.2 (by decide)
  rw [hmsg]
  have : msg = "DATABASE_URL environment variable not set. Set it in .env for local development or platform dashboard for production." := by
    have h2 : engine envNone none = Except.error "DATABASE_URL environment variable not set. Set it in .env for local development or platform dashboard for production." := rfl
    rw [h2] at hmsg
    exact (Except.error.inj hmsg).symm
  rw [this]

/-- C6: given the inspector's table list, the table-info handler answers
404 exactly for names outside the list, 500 for a failing column,
row-count or index step, and an info payload otherwise; an existing
table never gets a 404. -/
theorem table_info_status_spec (db : DBState) (t ts : String) (tables : List String)
    (h : db.tables = Except.ok tables) :
    (t ∉ tables → table_info db t ts =
        HandlerResult.httpError 404 ("Table " ++ sglq ++ t ++ sglq ++ " not found"))
    ∧ (t ∈ tables → ∀ d, table_info db t ts ≠ HandlerResult.httpError 404 d)
    ∧ (t ∈ tables → ∀ e,
         (db.columns t = Except.error e
          ∨ (∃ cols, db.columns t = Except.ok cols ∧ db.rowCount t = Except.error e)
          ∨ (∃ cols n, db.columns t = Except.ok cols ∧ db.rowCount t = Except.ok n
              ∧ db.indexes t = Except.error e)) →
         table_info db t ts = HandlerResult.httpError 500 ("Error getting table info: " ++ e))
    ∧ (t ∈ tables → ∀ cols n idxs, db.columns t = Except.ok cols →
         db.rowCount t = Except.ok n → db.indexes t = Except.ok idxs →
         ∃ p, table_info db t ts = HandlerResult.ok p
           ∧ p.lookup "row_count" = some (Json.int n)
           ∧ p.lookup "column_count" = some (Json.int (cols.length : Int))) := by
  refine ⟨?_, ?_, ?_, ?_⟩
  · intro hmem
    simp [table_info, h, hmem]
  · intro hmem d
    cases hc : db.columns t with
    | error e => simp [table_info, h, hmem, hc]
    | ok cols =>
      cases hr : db.rowCount t with
      | error e => simp [table_info, h, hmem, hc, hr]
      | ok n =>
        cases hi : db.indexes t with
        | error e => simp [table_info, h, hmem, hc, hr, hi]
        | ok idxs => simp [table_info, h, hmem, hc, hr, hi]
  · intro hmem e hcase
    rcases hcase with hc | ⟨cols, hc, hr⟩ | ⟨cols, n, hc, hr, hi⟩
    · simp [table_info, h, hmem, hc]
    · simp [table_info, h, hmem, hc, hr]
    · simp [table_info, h, hmem, hc, hr, hi]
  · intro hmem cols n idxs hc hr hi
    refine ⟨Json.obj [("table_name", Json.str t), ("row_count", Json.int n),
        ("column_count", Json.int (cols.length : Int)),
        ("columns", Json.arr (cols.map colJson)),
        ("indexes", Json.arr (idxs.map idxJson)),
        ("timestamp", Json.str ts)], ?_, rfl, rfl⟩
    simp [table_info, h, hmem, hc, hr, hi]

/-- Witness for C6: a missing table gets the 404, an existing one gets
its info payload. -/
theorem table_info_status_spec_witness :
    dbOk.tables = Except.ok ["users", "posts"]
    ∧ table_info dbOk "nope" "T" =
        HandlerResult.httpError 404 ("Table " ++ sglq ++ "nope" ++ sglq ++ " not found")
    ∧ (table_info dbOk "users" "T").look "row_count" = some (Json.int 5)
    ∧ (table_info dbOk "users" "T").look "column_count" = some (Json.int 1) := by
  refine ⟨rfl, (table_info_status_spec dbOk "nope" "T" ["users", "posts"] rfl).1 (by decide), ?_, ?_⟩
  · obtain ⟨p, hp, h1, h2⟩ := (table_info_status_spec dbOk "users" "T" ["users", "posts"] rfl).2.2.2
      (by decide) [{ name := "id", colType := "INTEGER", nullable := false, default := none }] 5 []
      rfl rfl rfl
    rw [hp]
    simpa [HandlerResult.look] using h1
  · obtain ⟨p, hp, h1, h2⟩ := (table_info_status_spec dbOk "users" "T" ["users", "posts"] rfl).2.2.2
      (by decide) [{ name := "id", colType := "INTEGER", nullable := false, default := none }] 5 []
      rfl rfl rfl
    rw [hp]
    simpa [HandlerResult.look] using h2

/-- C7: the db-check handler never raises an HTTP error: it always
returns a payload, reporting `connected: true` with the table count and
the ascending-sorted table list on success, and `connected: false` with
the stringified exception on any failure. -/
theorem database_check_never_raises (env : Env) (db : DBState) (ts : String) :
    (∃ p, database_check env db ts = HandlerResult.ok p)
    ∧ (∀ tables, db.selectOne = Except.ok () → db.tables = Except.ok tables →
         (database_check env db ts).look "connected" = some (Json.bool true)
         ∧ (database_check env db ts).look "table_count" = some (Json.int (tables.length : Int))
         ∧ ∃ l, (database_check env db ts).look "tables" = some (Json.arr (l.map Json.str))
             ∧ List.Sorted pyStrLe l ∧ l.Perm tables)
    ∧ (∀ e, db.selectOne = Except.error e →
         (database_check env db ts).look "connected" = some (Json.bool false)
         ∧ (database_check env db ts).look "error" = some (Json.str e))
    ∧ (∀ e, db.selectOne = Except.ok () → db.tables = Except.error e →
         (database_check env db ts).look "connected" = some (Json.bool false)
         ∧ (database_check env db ts).look "error" = some (Json.str e)) := by
  refine ⟨?_, ?_, ?_, ?_⟩
  · cases hs : db.selectOne with
    | error e => exact ⟨_, by simp [database_check, hs]; rfl⟩
    | ok u =>
      cases ht : db.tables with
      | error e => exact ⟨_, by simp [database_check, hs, ht]; rfl⟩
      | ok tables => exact ⟨_, by simp [database_check, hs, ht]; rfl⟩
  · intro tables hs ht
    refine ⟨?_, ?_, List.insertionSort pyStrLe tables, ?_, ?_, ?_⟩
    · simp [database_check, hs, ht, HandlerResult.look, Json.lookup, List.lookup]
    · simp [database_check, hs, ht, HandlerResult.look, Json.lookup, List.lookup]
    · simp [database_check, hs, ht, HandlerResult.look, Json.lookup, List.lookup]
    · exact List.sorted_insertionSort _ tables
    · exact List.perm_insertionSort _ tables
  · intro e hs
    constructor <;> simp [database_check, hs, HandlerResult.look, Json.lookup, List.lookup]
  · intro e hs ht
    constructor <;> simp [database_check, hs, ht, HandlerResult.look, Json.lookup, List.lookup]

/-- Witness for C7 at the all-success oracle. -/
theorem database_check_never_raises_witness :
    dbOk.selectOne = Except.ok () ∧ dbOk.tables = Except.ok ["users", "posts"]
    ∧ (database_check envPg dbOk "T").look "connected" = some (Json.bool true)
    ∧ (database_check envPg dbOk "T").look "table_count" = some (Json.int 2) := by
  have h := (database_check_never_raises envPg dbOk "T").2.1 ["users", "posts"] rfl rfl
  exact ⟨rfl, rfl, h.1, by simpa using h.2.1⟩

/-- The seven environment variables the env-check handler inspects. -/
def checkedVars : List String :=
  ["DATABASE_URL", "ENVIRONMENT", "LOG_LEVEL", "FINNHUB_API_KEY",
   "ALPHA_VANTAGE_API_KEY", "REDIS_URL", "SENTRY_DSN"]

/-- Agreement of two environments on which checked variables are set at
all (present in the environment, whatever the value). -/
def agreeSetness (e1 e2 : Env) : Bool :=
  checkedVars.all fun k => (e1 k).isSome == (e2 k).isSome

/-- Agreement of two environments on Python truthiness (set to a
non-empty value) of every checked variable. -/
def agreeTruthy (e1 e2 : Env) : Bool :=
  checkedVars.all fun k => pyTruthy (e1 k) == pyTruthy (e2 k)

/-- Environment whose only set variable is `FINNHUB_API_KEY`, with an
empty-string value. -/
def envA : Env := fun k => if k = "FINNHUB_API_KEY" then some "" else none

/-- Environment whose only set variable is `FINNHUB_API_KEY`, with a
non-empty value. -/
def envB : Env := fun k => if k = "FINNHUB_API_KEY" then some "key" else none

/-- Environment with `FINNHUB_API_KEY` set to one non-empty value. -/
def envC : Env := fun k => if k = "FINNHUB_API_KEY" then some "a" else none

/-- Environment with `FINNHUB_API_KEY` set to another non-empty value. -/
def envD : Env := fun k => if k = "FINNHUB_API_KEY" then some "b" else none

/-- The `finnhub_api_key_set` flag inside an env-check response. -/
def finnhubFlag (r : HandlerResult) : Option Json :=
  match r.look "variables" with
  | some v => v.lookup "finnhub_api_key_set"
  | none => none

/-- C8 (counterexample): `envA` and `envB` agree on which of the seven
checked variables are set and on the value of `ENVIRONMENT`, and the
handler is called with equal timestamps, yet the env-check responses
differ, because an empty-string value is set but Python-falsy. -/
theorem environment_check_setness_cex :
    agreeSetness envA envB = true
    ∧ envA "ENVIRONMENT" = envB "ENVIRONMENT"
    ∧ environment_check envA "T" ≠ environment_check envB "T" := by
  refine ⟨by decide, rfl, ?_⟩
  intro h
  have h2 := congrArg finnhubFlag h
  rw [show finnhubFlag (environment_check envA "T") = some (Json.bool false) from rfl,
      show finnhubFlag (environment_check envB "T") = some (Json.bool true) from rfl] at h2
  simp at h2

/-- C8 (amended): two environments agreeing on Python truthiness (set to
a non-empty value) of each of the seven checked variables and on the
value of `ENVIRONMENT` get identical env-check responses apart from the
timestamp; the variables mapping holds only booleans, while the value of
`ENVIRONMENT` itself is exposed in the `environment` field. -/
theorem environment_check_noninterference (e1 e2 : Env) (ts : String)
    (h7 : ∀ k ∈ checkedVars, pyTruthy (e1 k) = pyTruthy (e2 k))
    (hE : e1 "ENVIRONMENT" = e2 "ENVIRONMENT") :
    environment_check e1 ts = environment_check e2 ts
    ∧ (∃ vs, (environment_check e1 ts).look "variables" = some vs ∧ vs.allBools = true)
    ∧ (environment_check e1 ts).look "environment"
        = some (Json.str ((e1 "ENVIRONMENT").getD "unknown")) := by
  have k1 := h7 "DATABASE_URL" (by decide)
  have k2 := h7 "ENVIRONMENT" (by decide)
  have k3 := h7 "LOG_LEVEL" (by decide)
  have k4 := h7 "FINNHUB_API_KEY" (by decide)
  have k5 := h7 "ALPHA_VANTAGE_API_KEY" (by decide)
  have k6 := h7 "REDIS_URL" (by decide)
  have k7 := h7 "SENTRY_DSN" (by decide)
  refine ⟨?_, ⟨_, rfl, rfl⟩, rfl⟩
  simp [environment_check, hE, k1, k2, k3, k4, k5, k6, k7]

/-- Witness for the amended C8 at two environments whose only difference
is the (non-empty) value of `FINNHUB_API_KEY`. -/
theorem environment_check_noninterference_witness :
    agreeTruthy envC envD = true
    ∧ envC "ENVIRONMENT" = envD "ENVIRONMENT"
    ∧ environment_check envC "T" = environment_check envD "T" :=
  ⟨by decide, rfl,
   (environment_check_noninterference envC envD "T" (by decide) rfl).1⟩

/-- C1 (counterexample): the router module does not define seven request
handlers; it defines six. -/
theorem router_not_seven_handlers : routerHandlers.length ≠ 7 := by decide

/-- C1 (amended): the router module defines exactly six request handlers,
and every body a handler returns normally is a JSON object. -/
theorem router_six_handlers_obj :
    routerHandlers.length = 6
    ∧ ∀ (h : Handler) (env : Env) (db : DBState) (arg pyver ts : String) (s : Session),
        (dispatch h env db arg pyver ts s).returnsObj = true := by
  refine ⟨rfl, ?_⟩
  intro h env db arg pyver ts s
  cases h <;> simp only [dispatch]
  case health => rfl
  case env_check => rfl
  case version => rfl
  case db_check =>
    cases hs : db.selectOne with
    | error e => simp [database_check, hs, HandlerResult.returnsObj, Json.isObj]
    | ok u =>
      cases ht : db.tables with
      | error e => simp [database_check, hs, ht, HandlerResult.returnsObj, Json.isObj]
      | ok tables => simp [database_check, hs, ht, HandlerResult.returnsObj, Json.isObj]
  case table_info =>
    cases ht : db.tables with
    | error e => simp [table_info, ht, HandlerResult.returnsObj]
    | ok tables =>
      by_cases hmem : arg ∈ tables
      · cases hc : db.columns arg with
        | error e => simp [table_info, ht, hmem, hc, HandlerResult.returnsObj]
        | ok cols =>
          cases hr : db.rowCount arg with
          | error e => simp [table_info, ht, hmem, hc, hr, HandlerResult.returnsObj]
          | ok n =>
            cases hi : db.indexes arg with
            | error e => simp [table_info, ht, hmem, hc, hr, hi, HandlerResult.returnsObj]
            | ok idxs =>
              simp [table_info, ht, hmem, hc, hr, hi, HandlerResult.returnsObj, Json.isObj]
      · simp [table_info, ht, hmem, HandlerResult.returnsObj]
  case sequence_check =>
    by_cases hpg : strStartsWith ((env "DATABASE_URL").getD "") "postgresql" = true
    · cases hm : db.maxId arg with
      | error e => simp [sequence_check, hpg, hm, HandlerResult.returnsObj]
      | ok mx =>
        cases hv : db.lastValue arg with
        | error e => simp [sequence_check, hpg, hm, hv, HandlerResult.returnsObj]
        | ok v => simp [sequence_check, hpg, hm, hv, HandlerResult.returnsObj, Json.isObj]
    · have hpg2 : strStartsWith ((env "DATABASE_URL").getD "") "postgresql" = false := by
        simpa using hpg
      simp [sequence_check, hpg2, HandlerResult.returnsObj, Json.isObj]
